import Mathlib

/-!
Verification of the PDF salary-redaction subsystem of the ATS repository.

The development shallowly embeds the three masking-related JavaScript
units (`pdf-masking.js`, `pdf-manual-masking.js`, `storage.js`) into Lean:
pure functions become Lean functions over `String`, `Nat` and `ℚ`;
JavaScript exceptions become `Except String`; the stateful manual-selection
modal becomes explicit state passing over a session record.  JavaScript
regular expressions used by the salary matcher are embedded via a small
Brzozowski-derivative matcher over `List Char`, with each source pattern
transcribed node by node.
-/

namespace ATS

/-! ## Character helpers (JavaScript semantics) -/

/-- The JavaScript `\s` character class (WhiteSpace ∪ LineTerminator):
space, tab, LF, VT, FF, CR, NBSP, Ogham space, the U+2000–U+200A range,
LS, PS, NNBSP, MMSP, ideographic space and the BOM. -/
def isJsWhitespace (c : Char) : Bool :=
  c == ' ' || c == '\t' || c == '\n' || c == '\r' ||
  c.val == 11 || c.val == 12 || c.val == 0xa0 || c.val == 0x1680 ||
  (0x2000 ≤ c.val && c.val ≤ 0x200a) || c.val == 0x2028 || c.val == 0x2029 ||
  c.val == 0x202f || c.val == 0x205f || c.val == 0x3000 || c.val == 0xfeff

/-- The JavaScript `\d` character class. -/
def isDigitChar (c : Char) : Bool :=
  '0' ≤ c && c ≤ '9'

/-- ASCII lower-casing of one character; all source patterns and keywords
use only lower-case ASCII letters and Korean, for which JavaScript
`toLowerCase`/the `i` flag coincide with ASCII folding of the input. -/
def lowerAscii (c : Char) : Char :=
  if 'A' ≤ c && c ≤ 'Z' then Char.ofNat (c.toNat + 32) else c

def lowerList (s : List Char) : List Char :=
  s.map lowerAscii

/-- Source `String.prototype.trim`: strip JavaScript whitespace from both ends. -/
def trimWs (s : List Char) : List Char :=
  ((s.dropWhile isJsWhitespace).reverse.dropWhile isJsWhitespace).reverse

/-- Does `needle` occur at the head of `hay`? -/
def listPrefixEq : List Char → List Char → Bool
  | [], _ => true
  | _ :: _, [] => false
  | a :: as, b :: bs => a == b && listPrefixEq as bs

/-- Source `String.prototype.includes`: substring containment. -/
def listContainsSub (needle : List Char) : List Char → Bool
  | [] => listPrefixEq needle []
  | c :: cs => listPrefixEq needle (c :: cs) || listContainsSub needle cs

/-! ## A Brzozowski-derivative regular-expression matcher -/

/-- Regular expressions over `Char`, with character classes given by a
Boolean predicate (mirroring JavaScript character classes). -/
inductive RE where
  | fail : RE
  | eps : RE
  | cls (p : Char → Bool) : RE
  | cat (a b : RE) : RE
  | alt (a b : RE) : RE
  | star (a : RE) : RE

def RE.nullable : RE → Bool
  | .fail => false
  | .eps => true
  | .cls _ => false
  | .cat a b => a.nullable && b.nullable
  | .alt a b => a.nullable || b.nullable
  | .star _ => true

def RE.deriv : RE → Char → RE
  | .fail, _ => .fail
  | .eps, _ => .fail
  | .cls p, c => if p c then .eps else .fail
  | .cat a b, c =>
      if a.nullable then .alt (.cat (a.deriv c) b) (b.deriv c)
      else .cat (a.deriv c) b
  | .alt a b, c => .alt (a.deriv c) (b.deriv c)
  | .star a, c => .cat (a.deriv c) (.star a)

/-- Does the whole list match `r`? -/
def RE.matchAll (r : RE) : List Char → Bool
  | [] => r.nullable
  | c :: cs => (r.deriv c).matchAll cs

/-- Does some prefix of the list match `r`? -/
def RE.matchPre (r : RE) : List Char → Bool
  | [] => r.nullable
  | c :: cs => r.nullable || (r.deriv c).matchPre cs

/-- Source `RegExp.prototype.test` for an unanchored pattern: does some
substring of the list match `r`? -/
def RE.search (r : RE) : List Char → Bool
  | [] => r.matchPre []
  | c :: cs => r.matchPre (c :: cs) || r.search cs

/-- The literal regular expression for a string. -/
def litRE (s : String) : RE :=
  s.toList.foldr (fun c acc => RE.cat (RE.cls (fun d => d == c)) acc) RE.eps

/-- Alternation over a non-empty list (empty list yields `fail`). -/
def oneOfRE (rs : List RE) : RE :=
  rs.foldr RE.alt RE.fail

def optRE (r : RE) : RE := RE.alt r RE.eps

def plusRE (r : RE) : RE := RE.cat r (RE.star r)

/-! ## The salary matcher (`pdf-masking.js`, `PdfMasking`) -/

/-- The separator class `[\s:：\-~]` used between keyword and amount. -/
def sepCls : RE :=
  RE.cls (fun c => isJsWhitespace c || c == ':' || c == '：' || c == '-' || c == '~')

/-- The class `[\d,\.]`. -/
def digitCommaDotCls : RE :=
  RE.cls (fun c => isDigitChar c || c == ',' || c == '.')

/-- The class `[\d,]`. -/
def digitCommaCls : RE :=
  RE.cls (fun c => isDigitChar c || c == ',')

/-- Source `\s*`. -/
def wsStar : RE := RE.star (RE.cls isJsWhitespace)

/-- Source pattern 1:
`/(?:연봉|년봉|희망\s*연봉|현재\s*연봉|예상\s*연봉|희망\s*급여|현재\s*급여|급여|월급|월봉)[\s:：\-~]*[\d,\.]+\s*(?:만원|만|원|천만원|천만)?/gi`. -/
def salaryPattern1 : RE :=
  RE.cat
    (oneOfRE
      [litRE "연봉", litRE "년봉",
       RE.cat (litRE "희망") (RE.cat wsStar (litRE "연봉")),
       RE.cat (litRE "현재") (RE.cat wsStar (litRE "연봉")),
       RE.cat (litRE "예상") (RE.cat wsStar (litRE "연봉")),
       RE.cat (litRE "희망") (RE.cat wsStar (litRE "급여")),
       RE.cat (litRE "현재") (RE.cat wsStar (litRE "급여")),
       litRE "급여", litRE "월급", litRE "월봉"])
    (RE.cat (RE.star sepCls)
      (RE.cat (plusRE digitCommaDotCls)
        (RE.cat wsStar
          (optRE (oneOfRE
            [litRE "만원", litRE "만", litRE "원", litRE "천만원", litRE "천만"])))))

/-- Source pattern 2: `/[\d,]+\s*(?:만원|천만원)/gi`. -/
def salaryPattern2 : RE :=
  RE.cat (plusRE digitCommaCls)
    (RE.cat wsStar (oneOfRE [litRE "만원", litRE "천만원"]))

/-- Source pattern 3:
`/(?:salary|annual\s*salary|expected\s*salary|current\s*salary|pay)[\s:：\-~]*[\d,\.]+/gi`. -/
def salaryPattern3 : RE :=
  RE.cat
    (oneOfRE
      [litRE "salary",
       RE.cat (litRE "annual") (RE.cat wsStar (litRE "salary")),
       RE.cat (litRE "expected") (RE.cat wsStar (litRE "salary")),
       RE.cat (litRE "current") (RE.cat wsStar (litRE "salary")),
       litRE "pay"])
    (RE.cat (RE.star sepCls) (plusRE digitCommaDotCls))

/-- Source `PdfMasking.SALARY_PATTERNS`, in source order. -/
def SALARY_PATTERNS : List RE :=
  [salaryPattern1, salaryPattern2, salaryPattern3]

/-- Source `PdfMasking.SALARY_KEYWORDS`. -/
def SALARY_KEYWORDS : List String :=
  ["연봉", "년봉", "급여", "월급", "월봉",
   "희망연봉", "현재연봉", "예상연봉", "희망급여", "현재급여",
   "희망 연봉", "현재 연봉", "예상 연봉", "희망 급여", "현재 급여",
   "salary", "pay", "annual salary", "expected salary"]

/-- A positioned text fragment produced by the Text Position Extractor
(`extractTextWithPositions`): string content plus page number and
render-space bounding box at extraction scale 1.0. -/
structure TextItem where
  text : String
  page : Nat
  x : ℚ
  y : ℚ
  width : ℚ
  height : ℚ
  deriving Repr, DecidableEq

/-- The tag recorded on each matched fragment. -/
inductive Reason where
  | pattern_match
  | keyword_match
  | nearby_number
  deriving Repr, DecidableEq

/-- A `TextItem` claimed by the matcher, with its match reason
(the source spreads the item and adds a `reason` field). -/
structure MaskItem where
  item : TextItem
  reason : Reason
  deriving Repr, DecidableEq

/-- Source `Math.abs` on rationals. -/
def ratAbs (q : ℚ) : ℚ := if q < 0 then -q else q

/-- The direct-pattern test of step 1 of `findSalaryItems`: each pattern
carries the `i` flag, so the fragment text is matched case-folded. -/
def patternTest (text : String) : Bool :=
  SALARY_PATTERNS.any (fun p => p.search (lowerList text.toList))

/-- The keyword test of step 2:
`SALARY_KEYWORDS.some(kw => text.toLowerCase().includes(kw.toLowerCase()))`. -/
def keywordTest (text : String) : Bool :=
  SALARY_KEYWORDS.any (fun kw =>
    listContainsSub (lowerList kw.toList) (lowerList text.toList))

/-- Source `/[\d,]+/.test(nearItem.text)` (no `i` flag in the source). -/
def hasNumberTest (text : String) : Bool :=
  (plusRE digitCommaCls).search text.toList

/-- Source `/만원|천만|원|만/.test(nearItem.text)`. -/
def hasMoneyUnitTest (text : String) : Bool :=
  (oneOfRE [litRE "만원", litRE "천만", litRE "원", litRE "만"]).search text.toList

/-- Source `/^[\d,\.]+\s*(?:만원|천만원|만|원)?$/.test(nearItem.text.trim())` —
anchored, so a full match of the trimmed text. -/
def isLikelyAmountTest (text : String) : Bool :=
  (RE.cat (plusRE digitCommaDotCls)
    (RE.cat wsStar
      (optRE (oneOfRE [litRE "만원", litRE "천만원", litRE "만", litRE "원"])))).matchAll
    (trimWs text.toList)

/-- The nearby-number condition of the inner scan of `findSalaryItems`,
for keyword fragment `item` against candidate `nearItem`. -/
def nearbyNumberTest (item nearItem : TextItem) : Bool :=
  (nearItem.page == item.page) &&
  (ratAbs (nearItem.y - item.y) < 20) &&
  hasNumberTest nearItem.text &&
  (hasMoneyUnitTest nearItem.text || isLikelyAmountTest nearItem.text)

/-- Source `PdfMasking.findSalaryItems`: one left-to-right scan over the
fragments; a fragment already claimed (its index in `processedIndices`)
is skipped; a direct pattern match claims the fragment with
`pattern_match`; otherwise a keyword hit claims it with `keyword_match`
and additionally claims every not-yet-claimed same-page fragment on the
same visual row that looks like an amount, with `nearby_number`. -/
def findSalaryItems (textItems : List TextItem) : List MaskItem :=
  (textItems.enum.foldl
    (fun (st : List MaskItem × List Nat) (pair : Nat × TextItem) =>
      let i := pair.fst
      let item := pair.snd
      if st.snd.contains i then st
      else if patternTest item.text then
        (st.fst ++ [⟨item, Reason.pattern_match⟩], st.snd ++ [i])
      else if keywordTest item.text then
        textItems.enum.foldl
          (fun (st2 : List MaskItem × List Nat) (pair2 : Nat × TextItem) =>
            let j := pair2.fst
            let nearItem := pair2.snd
            if st2.snd.contains j || j == i then st2
            else if nearbyNumberTest item nearItem then
              (st2.fst ++ [⟨nearItem, Reason.nearby_number⟩], st2.snd ++ [j])
            else st2)
          (st.fst ++ [⟨item, Reason.keyword_match⟩], st.snd ++ [i])
      else st)
    ([], [])).fst

/-! ## The Text Position Extractor (`extractTextWithPositions`) -/

/-- One raw item of a page's `textContent.items` as consumed by
`extractTextWithPositions`: the string, the two translation entries of
its transform matrix, its width, and its height (`item.height || 12`
treats a missing or zero height as falsy). -/
structure RawItem where
  str : String
  tx4 : ℚ
  tx5 : ℚ
  width : ℚ
  height : Option ℚ
  deriving Repr, DecidableEq

/-- The data obtained from one successfully parsed page: the height of
its scale-1.0 viewport and its raw text items. -/
structure PageData where
  viewportHeight : ℚ
  items : List RawItem
  deriving Repr, DecidableEq

/-- JavaScript truthiness of `item.height || 12`. -/
def effHeight : Option ℚ → ℚ
  | none => 12
  | some h => if h == 0 then 12 else h

/-- The per-item filter and coordinate normalisation of the inner loop:
`if (item.str && item.str.trim())` keeps an item whose string is
non-empty after trimming; `y` is flipped to a top-left origin via the
viewport height. -/
def pageFragments (pageNum : Nat) (pd : PageData) : List TextItem :=
  pd.items.filterMap (fun it =>
    if it.str ≠ "" ∧ trimWs it.str.toList ≠ [] then
      some ⟨it.str, pageNum, it.tx4, pd.viewportHeight - it.tx5,
            it.width, effHeight it.height⟩
    else none)

/-- Source `PdfMasking.extractTextWithPositions`, past the document load: a
loaded document is the list of its pages in order, each page either
parsing to a `PageData` or throwing (`pdf.getPage` / `getTextContent`).
The page loop carries no per-page `try`/`catch`, so the first page error
propagates out of the whole function. -/
def extractPageStep (acc : Except String (List TextItem))
    (pair : Nat × Except String PageData) : Except String (List TextItem) :=
  match acc with
  | Except.error e => Except.error e
  | Except.ok items =>
    match pair.snd with
    | Except.error e => Except.error e
    | Except.ok pd => Except.ok (items ++ pageFragments (pair.fst + 1) pd)

def extractTextWithPositions (pages : List (Except String PageData)) :
    Except String (List TextItem) :=
  pages.enum.foldl extractPageStep (Except.ok [])

def firstErrStep (acc : Option String) (p : Except String PageData) :
    Option String :=
  match acc with
  | some e => some e
  | none => match p with | Except.error e => some e | Except.ok _ => none

/-- The first page error of the document, in page order. -/
def firstPageError (pages : List (Except String PageData)) : Option String :=
  pages.foldl firstErrStep none

/-- The fragments of all parsable pages, skipping failing ones — the
behaviour the spec describes for the extractor (refinement reference,
transcribed from the spec's words, not from the source). -/
def skipPageStep (acc : List TextItem) (pair : Nat × Except String PageData) :
    List TextItem :=
  match pair.snd with
  | Except.error _ => acc
  | Except.ok pd => acc ++ pageFragments (pair.fst + 1) pd

def extractSkippingFailedPages (pages : List (Except String PageData)) :
    List TextItem :=
  pages.enum.foldl skipPageStep []

/-! ## `PdfMasking.checkSalaryInfo` -/

/-- One entry of the `items` list returned by `checkSalaryInfo`. -/
structure SalaryItemInfo where
  text : String
  page : Nat
  reason : Reason
  deriving Repr, DecidableEq

/-- The result shape of `checkSalaryInfo`. -/
structure SalaryCheck where
  hasSalaryInfo : Bool
  count : Nat
  items : List SalaryItemInfo
  error : Option String
  deriving Repr, DecidableEq

/-- Source `PdfMasking.checkSalaryInfo`: the fallible prefix (reading the file
and extracting text; `findSalaryItems` itself is pure and total) is the
`Except`-valued argument; any thrown error is caught and turned into the
empty result carrying the error message. -/
def checkSalaryInfo (extraction : Except String (List TextItem)) : SalaryCheck :=
  match extraction with
  | Except.error e => ⟨false, 0, [], some e⟩
  | Except.ok textItems =>
    let itemsToMask := findSalaryItems textItems
    ⟨decide (0 < itemsToMask.length), itemsToMask.length,
     itemsToMask.map (fun m => ⟨m.item.text, m.item.page, m.reason⟩), none⟩

/-! ## `Storage.uploadFile` (`storage.js`) -/

/-- A browser `File` value: name, MIME type and contents. -/
structure FileV where
  name : String
  mime : String
  content : List Nat
  deriving Repr, DecidableEq

/-- Source `PdfMasking.isPdf`: extension or MIME test. -/
def isPdf (f : FileV) : Bool :=
  (lowerList f.name.toList).reverse.take 4 == (".pdf".toList).reverse ||
  f.mime == "application/pdf"

/-- The value resolved by `PdfMasking.maskSalaryInfo` on success. -/
structure MaskResult where
  file : FileV
  masked : Bool
  maskedCount : Nat
  deriving Repr, DecidableEq

/-- The attachment metadata row created by `DB.createAttachment`. -/
structure AttachmentData where
  applicantId : Nat
  fileName : String
  storagePath : String
  deriving Repr, DecidableEq

/-- The collaborators `uploadFile` calls, each modelled by its outcome:
the caller's privilege check, whether `window.PdfMasking` is loaded, the
behaviour of `maskSalaryInfo` on this file, the storage upload keyed by
the file actually passed to it, and the metadata insert. -/
structure UploadDeps where
  isAdminOrAbove : Bool
  pdfMaskingLoaded : Bool
  maskResult : Except String MaskResult
  storageUpload : FileV → Except String String
  createAttachment : String → Except String AttachmentData

/-- The result of `uploadFile`: `{success:true, data, wasMasked,
maskedCount}` or `{success:false, error}`. -/
inductive UploadResult where
  | ok (data : AttachmentData) (wasMasked : Bool) (maskedCount : Nat)
  | err (msg : String)
  deriving Repr, DecidableEq

/-- Source `Storage.uploadFile` with `visibility` elided (it is passed through
unchanged): privilege check; optional masking of a PDF where a masking
error is caught and the original file kept (`wasMasked` stays false);
storage upload of the chosen file; metadata insert, whose failure
deletes the uploaded blob and fails the call. -/
def uploadFile (file : FileV) (maskSalary : Bool) (deps : UploadDeps) :
    UploadResult :=
  if !deps.isAdminOrAbove then
    UploadResult.err "파일 업로드 권한이 없습니다. 관리자만 업로드할 수 있습니다."
  else
    let stage :=
      if maskSalary && deps.pdfMaskingLoaded && isPdf file then
        match deps.maskResult with
        | Except.ok mr => (mr.file, mr.masked, mr.maskedCount)
        | Except.error _ => (file, false, 0)
      else (file, false, 0)
    match deps.storageUpload stage.fst with
    | Except.error e => UploadResult.err e
    | Except.ok path =>
      match deps.createAttachment path with
      | Except.error e => UploadResult.err e
      | Except.ok data => UploadResult.ok data stage.snd.fst stage.snd.snd

/-! ## Coordinate transform -/

/-- An axis-aligned rectangle. -/
structure Rect where
  x : ℚ
  y : ℚ
  width : ℚ
  height : ℚ
  deriving Repr, DecidableEq

/-- Modelled from the spec: the Coordinate Transformer contract
`toPdfSpace(renderRect, renderScale, pageHeight)` of §4.1.  No standalone
function of this name exists under `src/`; the call sites specialise it —
`applyMasking` in `pdf-masking.js` applies it at render scale 1.0
(extraction scale), see `applyMaskingPdfY` below. -/
def toPdfSpace (r : Rect) (renderScale pageHeight : ℚ) : Rect :=
  { x := r.x / renderScale,
    y := pageHeight - r.y / renderScale - r.height / renderScale,
    width := r.width / renderScale,
    height := r.height / renderScale }

/-- The y-flip performed by `applyMasking` (`pdf-masking.js`, line
`const pdfY = height - item.y - item.height`), at extraction scale 1.0. -/
def applyMaskingPdfY (pageHeight itemY itemHeight : ℚ) : ℚ :=
  pageHeight - itemY - itemHeight

/-! ## The Rasterizing Redactor (`pdf-manual-masking.js`) -/

/-- A region selected by an operator drag, in renderer-space pixels at
the zoom scale active when it was drawn. -/
structure SelectedRegion where
  page : Nat
  x : ℚ
  y : ℚ
  width : ℚ
  height : ℚ
  scale : ℚ
  deriving Repr, DecidableEq

/-- One page of the input document: its native (scale-1.0) dimensions
and its extractable text. -/
structure PdfPage where
  width : ℚ
  height : ℚ
  text : String
  deriving Repr, DecidableEq

/-- The bitmap produced by `renderPageAsImage`: a pure raster (the page
drawn at scale 2.0 on a white canvas, with each selected region of the
page painted over as a white rectangle in raster coordinates).  It holds
pixel data only — no text stream. -/
structure PngImage where
  pageNum : Nat
  renderScale : ℚ
  maskRects : List Rect
  deriving Repr, DecidableEq

/-- A page of the output document assembled by `applyMaskingToPdf`:
either a structure-preserving copy of an original page (`copyPages`), or
a freshly added page of the given size holding a single embedded PNG. -/
inductive OutPage where
  | copied (p : PdfPage)
  | imagePage (png : PngImage) (width height : ℚ)
  deriving Repr, DecidableEq

/-- Text extraction on an output page: a copied page keeps the original
page's text stream; a page built by `addPage` + `drawImage` alone
carries no text operators, so extraction yields the empty string. -/
def extractOutText : OutPage → String
  | OutPage.copied p => p.text
  | OutPage.imagePage _ _ _ => ""

/-- The raster-space mask rectangle of `renderPageAsImage` for one
region: `scaleFactor = 2.0 / region.scale`, all four components scaled
(lines 524–535 of `pdf-manual-masking.js`). -/
def rasterMaskRect (region : SelectedRegion) : Rect :=
  let scaleFactor : ℚ := 2 / region.scale
  { x := region.x * scaleFactor, y := region.y * scaleFactor,
    width := region.width * scaleFactor, height := region.height * scaleFactor }

/-- Source `PdfManualMasking.renderPageAsImage`, modulo the canvas: renders the
page at fixed scale 2.0 and paints every selected region of that page
white in raster coordinates. -/
def renderPageAsImage (regions : List SelectedRegion) (pageNum : Nat) :
    PngImage :=
  { pageNum := pageNum, renderScale := 2,
    maskRects := (regions.filter (fun r => r.page == pageNum)).map rasterMaskRect }

/-- Source `[...new Set(xs)]`: deduplication preserving first-occurrence order. -/
def dedupFirst (xs : List Nat) : List Nat :=
  (xs.foldl (fun acc x => if acc.contains x then acc else acc ++ [x]) [])

/-- Source `PdfManualMasking.applyMaskingToPdf`: build a fresh document; every
page whose number occurs in some selected region is replaced by a new
page of the original page's native dimensions holding only the rendered
bitmap; every other page is copied verbatim from the original.
`canvasFail pageNum = some e` models the page-to-bitmap rendering
throwing `e` for that page (the only fallible step the source can hit
per page); the loop carries no per-page `try`/`catch`, so such an error
aborts the whole assembly. -/
def buildPageStep (regions : List SelectedRegion) (canvasFail : Nat → Option String)
    (pagesToFlatten : List Nat) (acc : Except String (List OutPage))
    (pair : Nat × PdfPage) : Except String (List OutPage) :=
  match acc with
  | Except.error e => Except.error e
  | Except.ok outPages =>
    let pageNum := pair.fst + 1
    if pagesToFlatten.contains pageNum then
      match canvasFail pageNum with
      | some e => Except.error e
      | none =>
        Except.ok (outPages ++
          [OutPage.imagePage (renderPageAsImage regions pageNum)
            pair.snd.width pair.snd.height])
    else
      Except.ok (outPages ++ [OutPage.copied pair.snd])

def applyMaskingToPdf (doc : List PdfPage) (regions : List SelectedRegion)
    (canvasFail : Nat → Option String) : Except String (List OutPage) :=
  let pagesToFlatten := dedupFirst (regions.map (fun r => r.page))
  doc.enum.foldl (buildPageStep regions canvasFail pagesToFlatten) (Except.ok [])

/-! ## The Manual Selection Session (`PdfManualMasking`) -/

/-- The mutable `PdfManualMasking.state`, together with the two pieces
of modal UI state the commit path touches (whether the modal element
exists and whether the apply button is enabled). -/
structure Session where
  pdfDoc : Option (List PdfPage)
  currentPage : Nat
  totalPages : Nat
  scale : ℚ
  selectedRegions : List SelectedRegion
  isDrawing : Bool
  startX : ℚ
  startY : ℚ
  originalFile : Option FileV
  modalOpen : Bool
  applyBtnEnabled : Bool

/-- Source `onMouseDown`: start a drag at the pointer's canvas position. -/
def onMouseDown (s : Session) (x y : ℚ) : Session :=
  { s with isDrawing := true, startX := x, startY := y }

/-- Source `onMouseUp`: finalize the drag; the candidate rectangle is appended
to the region list only if both dimensions are at least 10 renderer
pixels, and is discarded silently otherwise. -/
def onMouseUp (s : Session) (x y : ℚ) : Session :=
  if !s.isDrawing then s
  else
    let w := ratAbs (x - s.startX)
    let h := ratAbs (y - s.startY)
    let s := { s with isDrawing := false }
    if 10 ≤ w ∧ 10 ≤ h then
      { s with selectedRegions := s.selectedRegions ++
          [⟨s.currentPage, min s.startX x, min s.startY y, w, h, s.scale⟩] }
    else s

/-- Source `removeRegion`: `splice(index, 1)`. -/
def removeRegion (s : Session) (index : Nat) : Session :=
  { s with selectedRegions := s.selectedRegions.eraseIdx index }

/-- Source `clearAllRegions`: guarded by a confirmation dialog when non-empty. -/
def clearAllRegions (s : Session) (confirmed : Bool) : Session :=
  if 0 < s.selectedRegions.length ∧ !confirmed then s
  else { s with selectedRegions := [] }

/-- Source `goToPage`: clamp-guarded page navigation; regions untouched. -/
def goToPage (s : Session) (pageNum : Nat) : Session :=
  if pageNum < 1 ∨ s.totalPages < pageNum then s
  else { s with currentPage := pageNum }

/-- Source `setZoom`: guarded zoom change; regions untouched. -/
def setZoom (s : Session) (scale : ℚ) : Session :=
  if scale < 1/2 ∨ 3 < scale then s
  else { s with scale := scale }

/-- Source `closeModal`: remove the modal element and reset the state. -/
def closeModal (s : Session) : Session :=
  { s with modalOpen := false, pdfDoc := none, selectedRegions := [],
           originalFile := none }

/-- The session operations an operator can trigger from the modal. -/
inductive SessionOp where
  | mouseDown (x y : ℚ)
  | mouseUp (x y : ℚ)
  | remove (index : Nat)
  | clear (confirmed : Bool)
  | page (pageNum : Nat)
  | zoom (scale : ℚ)
  | close

def stepSession (s : Session) : SessionOp → Session
  | SessionOp.mouseDown x y => onMouseDown s x y
  | SessionOp.mouseUp x y => onMouseUp s x y
  | SessionOp.remove index => removeRegion s index
  | SessionOp.clear confirmed => clearAllRegions s confirmed
  | SessionOp.page pageNum => goToPage s pageNum
  | SessionOp.zoom scale => setZoom s scale
  | SessionOp.close => closeModal s

def runSession (s : Session) (ops : List SessionOp) : Session :=
  ops.foldl stepSession s

/-- The region-list invariant: every selected region is at least 10
renderer pixels in each dimension. -/
def RegionInv (s : Session) : Prop :=
  ∀ r ∈ s.selectedRegions, 10 ≤ r.width ∧ 10 ≤ r.height

/-- Source `applyMaskingAndUpload`: the commit path.  With no region selected
it alerts and returns unchanged.  Otherwise it disables the apply
button, runs the Rasterizing Redactor, and on success closes the modal
and delivers the assembled document and the region count to the
`onComplete` callback; on failure it alerts, re-enables the button and
leaves the session state (document handle, regions, modal) intact. -/
def applyMaskingAndUpload (s : Session) (canvasFail : Nat → Option String) :
    Session × Option (List OutPage × Nat) :=
  if s.selectedRegions.length == 0 then (s, none)
  else
    let busy := { s with applyBtnEnabled := false }
    match applyMaskingToPdf (s.pdfDoc.getD []) s.selectedRegions canvasFail with
    | Except.ok outPages =>
        let maskedCount := s.selectedRegions.length
        (closeModal busy, some (outPages, maskedCount))
    | Except.error _ =>
        ({ busy with applyBtnEnabled := true }, none)

/-! ## Helper lemmas -/

theorem foldl_extractPageStep_error
    (l : List (Nat × Except String PageData)) (e : String) :
    l.foldl extractPageStep (Except.error e) = Except.error e := by
  induction l with
  | nil => rfl
  | cons p ps ih => simpa [extractPageStep] using ih

theorem foldl_firstErrStep_some (l : List (Except String PageData)) (e : String) :
    l.foldl firstErrStep (some e) = some e := by
  induction l with
  | nil => rfl
  | cons p ps ih => simpa [firstErrStep] using ih

theorem extract_enumFrom_eq (pages : List (Except String PageData)) :
    ∀ (k : Nat) (acc : List TextItem),
    (List.enumFrom k pages).foldl extractPageStep (Except.ok acc) =
      match pages.foldl firstErrStep none with
      | some e => Except.error e
      | none => Except.ok ((List.enumFrom k pages).foldl skipPageStep acc) := by
  induction pages with
  | nil => intro k acc; rfl
  | cons p ps ih =>
    intro k acc
    cases p with
    | error e =>
      simp [List.enumFrom, extractPageStep, firstErrStep,
        foldl_extractPageStep_error, foldl_firstErrStep_some]
    | ok pd =>
      simpa [List.enumFrom, extractPageStep, firstErrStep, skipPageStep] using
        ih (k + 1) (acc ++ pageFragments (k + 1) pd)

/-! ## Claim C2 -/

/-- A three-page document whose middle page fails to parse while pages 1
and 3 parse fine. -/
def c2pages : List (Except String PageData) :=
  [Except.ok ⟨800, [⟨"p1", 10, 700, 50, some 12⟩]⟩,
   Except.error "Invalid page request",
   Except.ok ⟨800, [⟨"p3", 10, 700, 50, some 12⟩]⟩]

/-- C2 (counterexample): on a document whose page 2 fails to parse while
pages 1 and 3 parse, `extractTextWithPositions` does not return the
fragments of the parsable pages — it aborts with page 2's error, so the
whole operation fails rather than skipping the bad page. -/
theorem C2_extract_counterexample :
    extractTextWithPositions c2pages = Except.error "Invalid page request" ∧
    extractSkippingFailedPages c2pages =
      [⟨"p1", 1, 10, 800 - 700, 50, 12⟩, ⟨"p3", 3, 10, 800 - 700, 50, 12⟩] ∧
    extractTextWithPositions c2pages ≠
      Except.ok (extractSkippingFailedPages c2pages) := by
  refine ⟨rfl, rfl, ?_⟩
  intro h
  rw [show extractTextWithPositions c2pages = Except.error "Invalid page request"
      from rfl] at h
  exact Except.noConfusion h

/-- C2 (amended): a failure to parse a single page is fatal for
`extractTextWithPositions`: the function returns the first failing
page's error, and returns fragments only when every page parses — in
which case they are the fragments of all pages in document order. -/
theorem C2_extract_page_failure_fatal (pages : List (Except String PageData)) :
    extractTextWithPositions pages =
      match firstPageError pages with
      | some e => Except.error e
      | none => Except.ok (extractSkippingFailedPages pages) := by
  have h := extract_enumFrom_eq pages 0 []
  simpa [extractTextWithPositions, extractSkippingFailedPages, firstPageError,
    List.enum] using h

/-! ## Claim C10 -/

/-- C10: `checkSalaryInfo` never throws — any internal failure
(including a document that cannot be loaded) is caught and mapped to
`{hasSalaryInfo: false, count: 0, items: []}` plus the error message,
and its `hasSalaryInfo`, `count` and `items` fields coincide with those
of a genuinely salary-free document, for which the same shape is
returned with no error. -/
theorem C10_checkSalaryInfo_catches_all
    (extraction : Except String (List TextItem)) :
    (∀ e, extraction = Except.error e →
      checkSalaryInfo extraction = ⟨false, 0, [], some e⟩) ∧
    (∀ items, extraction = Except.ok items → findSalaryItems items = [] →
      checkSalaryInfo extraction = ⟨false, 0, [], none⟩) := by
  constructor
  · intro e he
    subst he
    rfl
  · intro items hi hempty
    subst hi
    simp [checkSalaryInfo, hempty]

/-- C10 (witness): a failing document load yields the empty result with
the error message, and a clean document yields the same first three
fields with no error. -/
theorem C10_checkSalaryInfo_catches_all_witness :
    checkSalaryInfo (Except.error "문서를 열 수 없습니다") =
      ⟨false, 0, [], some "문서를 열 수 없습니다"⟩ ∧
    checkSalaryInfo (Except.ok []) = ⟨false, 0, [], none⟩ :=
  ⟨(C10_checkSalaryInfo_catches_all
      (Except.error "문서를 열 수 없습니다")).1 _ rfl,
   (C10_checkSalaryInfo_catches_all (Except.ok [])).2 [] rfl rfl⟩

/-! ## Claim C3 -/

/-- C3: if `maskSalaryInfo` throws, `uploadFile` with `maskSalary=true`
behaves exactly as an unmasked upload of the original file — the error
is caught, the original file is the one passed to storage, and any
successful result reports `wasMasked=false`; a masking failure never
prevents the upload. -/
theorem C3_mask_failure_uploads_original (file : FileV) (deps : UploadDeps)
    (e : String) (h : deps.maskResult = Except.error e) :
    uploadFile file true deps = uploadFile file false deps ∧
    (∀ data wasMasked maskedCount,
      uploadFile file true deps = UploadResult.ok data wasMasked maskedCount →
      wasMasked = false) := by
  have hstage : uploadFile file true deps = uploadFile file false deps := by
    unfold uploadFile
    rw [h]
    cases hb : deps.pdfMaskingLoaded && isPdf file <;> simp [hb]
  refine ⟨hstage, ?_⟩
  intro data wasMasked maskedCount hok
  rw [hstage] at hok
  cases hadm : deps.isAdminOrAbove with
  | false => simp [uploadFile, hadm] at hok
  | true =>
    cases hs : deps.storageUpload file with
    | error msg => simp [uploadFile, hadm, hs] at hok
    | ok path =>
      cases hc : deps.createAttachment path with
      | error msg => simp [uploadFile, hadm, hs, hc] at hok
      | ok d =>
        simp [uploadFile, hadm, hs, hc] at hok
        exact hok.2.1

/-- Concrete collaborators for the C3 witness: admin caller, masking
library loaded, masking throws, storage and metadata succeed. -/
def c3deps : UploadDeps :=
  { isAdminOrAbove := true,
    pdfMaskingLoaded := true,
    maskResult := Except.error "PDF.js 라이브러리가 로드되지 않았습니다.",
    storageUpload := fun _ => Except.ok "42/171_abc.pdf",
    createAttachment := fun path => Except.ok ⟨42, "이력서.pdf", path⟩ }

def c3file : FileV := ⟨"이력서.pdf", "application/pdf", [37, 80, 68, 70]⟩

/-- C3 (witness): at the concrete collaborators above, the masked-upload
call equals the unmasked one. -/
theorem C3_mask_failure_uploads_original_witness :
    uploadFile c3file true c3deps = uploadFile c3file false c3deps :=
  (C3_mask_failure_uploads_original c3file c3deps
    "PDF.js 라이브러리가 로드되지 않았습니다." rfl).1

/-! ## Claim C7 -/

/-- C7: `toPdfSpace` maps a renderer-space rectangle (top-left origin,
scale `renderScale`) into native page space (bottom-left origin, scale
1.0) by the four stated formulas; at render scale 1.0 its y-flip is
exactly the one `applyMasking` performs; and at `renderScale=1.5`,
`renderX=100, renderY=50, width=80, height=20, pageHeight=800` the
result is within 0.01 of `(66.67, 753.34, 53.33, 13.33)`. -/
theorem C7_toPdfSpace_correct (r : Rect) (renderScale pageHeight : ℚ) :
    ((toPdfSpace r renderScale pageHeight).x = r.x / renderScale ∧
     (toPdfSpace r renderScale pageHeight).width = r.width / renderScale ∧
     (toPdfSpace r renderScale pageHeight).height = r.height / renderScale ∧
     (toPdfSpace r renderScale pageHeight).y =
       pageHeight - r.y / renderScale - r.height / renderScale) ∧
    (toPdfSpace r 1 pageHeight).y = applyMaskingPdfY pageHeight r.y r.height ∧
    (ratAbs ((toPdfSpace ⟨100, 50, 80, 20⟩ (3/2) 800).x - 6667/100) < 1/100 ∧
     ratAbs ((toPdfSpace ⟨100, 50, 80, 20⟩ (3/2) 800).width - 5333/100) < 1/100 ∧
     ratAbs ((toPdfSpace ⟨100, 50, 80, 20⟩ (3/2) 800).height - 1333/100) < 1/100 ∧
     ratAbs ((toPdfSpace ⟨100, 50, 80, 20⟩ (3/2) 800).y - 75334/100) < 1/100) := by
  refine ⟨⟨rfl, rfl, rfl, rfl⟩, ?_, ?_, ?_, ?_, ?_⟩
  · simp [toPdfSpace, applyMaskingPdfY]
  all_goals simp only [toPdfSpace, ratAbs]; norm_num

/-! ## Claim C5 -/

/-- C5: on the single fragment `"연봉: 4000만원"`, `findSalaryItems`
returns exactly one matched region, for that fragment, tagged
`pattern_match`: the direct-pattern check runs first and claims the
fragment whole, so the fragment is never tagged `keyword_match` or
`nearby_number`. -/
theorem C5_pattern_precedence (it : TextItem) (h : it.text = "연봉: 4000만원") :
    findSalaryItems [it] = [⟨it, Reason.pattern_match⟩] := by
  have hp : patternTest it.text = true := by rw [h]; decide
  simp [findSalaryItems, List.enum, List.enumFrom, hp]

/-- C5 (witness): the theorem at a concrete fragment. -/
theorem C5_pattern_precedence_witness :
    findSalaryItems [⟨"연봉: 4000만원", 1, 72, 140, 96, 12⟩] =
      [⟨⟨"연봉: 4000만원", 1, 72, 140, 96, 12⟩, Reason.pattern_match⟩] :=
  C5_pattern_precedence ⟨"연봉: 4000만원", 1, 72, 140, 96, 12⟩ rfl

/-! ## Claim C6 -/

/-- C6: on the two fragments `"희망연봉"` and `"3,500만원"` on the same
page with vertical centers within 5 units, `findSalaryItems` returns
both, the first tagged `keyword_match`, the second `nearby_number`, in
that order. -/
theorem C6_keyword_then_nearby (a b : TextItem) (ha : a.text = "희망연봉")
    (hb : b.text = "3,500만원") (hpage : b.page = a.page)
    (hy : ratAbs (b.y - a.y) < 5) :
    findSalaryItems [a, b] =
      [⟨a, Reason.keyword_match⟩, ⟨b, Reason.nearby_number⟩] := by
  have hpa : patternTest a.text = false := by rw [ha]; decide
  have hka : keywordTest a.text = true := by rw [ha]; decide
  have h20 : ratAbs (b.y - a.y) < 20 := lt_trans hy (by norm_num)
  have hnb : nearbyNumberTest a b = true := by
    have h1 : hasNumberTest "3,500만원" = true := by decide
    have h2 : hasMoneyUnitTest "3,500만원" = true := by decide
    simp [nearbyNumberTest, hpage, hb, h1, h2, h20]
  simp [findSalaryItems, List.enum, List.enumFrom, hpa, hka, hnb]

/-- C6 (witness): the theorem at concrete fragments whose vertical
centers differ by 3 units. -/
theorem C6_keyword_then_nearby_witness :
    findSalaryItems
      [⟨"희망연봉", 1, 10, 100, 50, 12⟩, ⟨"3,500만원", 1, 200, 103, 60, 12⟩] =
      [⟨⟨"희망연봉", 1, 10, 100, 50, 12⟩, Reason.keyword_match⟩,
       ⟨⟨"3,500만원", 1, 200, 103, 60, 12⟩, Reason.nearby_number⟩] :=
  C6_keyword_then_nearby ⟨"희망연봉", 1, 10, 100, 50, 12⟩
    ⟨"3,500만원", 1, 200, 103, 60, 12⟩ rfl rfl rfl (by norm_num [ratAbs])

/-! ## Rasterizing Redactor: output characterization -/

theorem foldl_buildPageStep_error (regions : List SelectedRegion)
    (canvasFail : Nat → Option String) (flatten : List Nat)
    (l : List (Nat × PdfPage)) (e : String) :
    l.foldl (buildPageStep regions canvasFail flatten) (Except.error e) =
      Except.error e := by
  induction l with
  | nil => rfl
  | cons p ps ih => simpa [buildPageStep] using ih

theorem dedupFirst_mem (x : Nat) (xs : List Nat) :
    x ∈ dedupFirst xs ↔ x ∈ xs := by
  have aux : ∀ (l acc : List Nat),
      (x ∈ l.foldl (fun acc y => if acc.contains y then acc else acc ++ [y]) acc
        ↔ (x ∈ acc ∨ x ∈ l)) := by
    intro l
    induction l with
    | nil => intro acc; simp
    | cons y ys ih =>
      intro acc
      simp only [List.foldl]
      by_cases hy : acc.contains y
      · rw [if_pos hy, ih acc]
        constructor
        · rintro (h | h)
          · exact Or.inl h
          · exact Or.inr (List.mem_cons_of_mem y h)
        · rintro (h | h)
          · exact Or.inl h
          · rcases List.mem_cons.mp h with rfl | h
            · exact Or.inl (List.mem_of_elem_eq_true hy)
            · exact Or.inr h
      · rw [if_neg hy, ih (acc ++ [y])]
        simp only [List.mem_append, List.mem_singleton, List.mem_cons]
        tauto
  simpa [dedupFirst] using aux xs []

theorem build_aux (regions : List SelectedRegion)
    (canvasFail : Nat → Option String) (flatten : List Nat) :
    ∀ (doc : List PdfPage) (k : Nat) (acc out : List OutPage),
    (List.enumFrom k doc).foldl (buildPageStep regions canvasFail flatten)
      (Except.ok acc) = Except.ok out →
    out.length = acc.length + doc.length ∧
    (∀ j, j < acc.length → out.get? j = acc.get? j) ∧
    (∀ i, (hi : i < doc.length) →
      out.get? (acc.length + i) = some
        (if flatten.contains (k + i + 1) then
          OutPage.imagePage (renderPageAsImage regions (k + i + 1))
            (doc.get ⟨i, hi⟩).width (doc.get ⟨i, hi⟩).height
        else OutPage.copied (doc.get ⟨i, hi⟩))) := by
  intro doc
  induction doc with
  | nil =>
    intro k acc out hout
    cases hout
    exact ⟨by simp, fun j hj => rfl, fun i hi => absurd hi (Nat.not_lt_zero i)⟩
  | cons p ps ih =>
    intro k acc out hout
    rw [show List.enumFrom k (p :: ps) = (k, p) :: List.enumFrom (k + 1) ps
        from rfl, List.foldl_cons] at hout
    by_cases hf : flatten.contains (k + 1) = true
    · cases hc : canvasFail (k + 1) with
      | some e =>
        rw [show buildPageStep regions canvasFail flatten (Except.ok acc) (k, p) =
              Except.error e by
            simp only [buildPageStep]
            rw [if_pos hf, hc]] at hout
        rw [foldl_buildPageStep_error] at hout
        exact Except.noConfusion hout
      | none =>
        rw [show buildPageStep regions canvasFail flatten (Except.ok acc) (k, p) =
              Except.ok (acc ++
                [OutPage.imagePage (renderPageAsImage regions (k + 1))
                  p.width p.height]) by
            simp only [buildPageStep]
            rw [if_pos hf, hc]] at hout
        obtain ⟨hlen, hpre, hget⟩ := ih (k + 1)
          (acc ++ [OutPage.imagePage (renderPageAsImage regions (k + 1))
            p.width p.height]) out hout
        simp only [List.length_append, List.length_cons, List.length_nil, Nat.zero_add] at hlen
        refine ⟨by simp only [List.length_cons]; omega, ?_, ?_⟩
        · intro j hj
          rw [hpre j (by simp only [List.length_append, List.length_cons,
            List.length_nil]; omega)]
          exact List.get?_append hj
        · intro i hi
          cases i with
          | zero =>
            have h0 := hpre acc.length (by simp only [List.length_append,
              List.length_cons, List.length_nil]; omega)
            rw [List.get?_concat_length] at h0
            simp only [Nat.add_zero]
            rw [if_pos hf]
            exact h0
          | succ i =>
            have hstep := hget i (Nat.lt_of_succ_lt_succ hi)
            simp only [List.length_append, List.length_cons, List.length_nil, Nat.zero_add]
              at hstep
            have harith : acc.length + (i + 1) = acc.length + 1 + i := by omega
            have hidx : k + 1 + i + 1 = k + (i + 1) + 1 := by omega
            rw [harith, hstep, hidx]; rfl
    · rw [show buildPageStep regions canvasFail flatten (Except.ok acc) (k, p) =
            Except.ok (acc ++ [OutPage.copied p]) by
          simp only [buildPageStep]
          rw [if_neg hf]] at hout
      obtain ⟨hlen, hpre, hget⟩ := ih (k + 1) (acc ++ [OutPage.copied p]) out hout
      simp only [List.length_append, List.length_cons, List.length_nil, Nat.zero_add] at hlen
      refine ⟨by simp only [List.length_cons]; omega, ?_, ?_⟩
      · intro j hj
        rw [hpre j (by simp only [List.length_append, List.length_cons,
          List.length_nil]; omega)]
        exact List.get?_append hj
      · intro i hi
        cases i with
        | zero =>
          have h0 := hpre acc.length (by simp only [List.length_append,
            List.length_cons, List.length_nil]; omega)
          rw [List.get?_concat_length] at h0
          simp only [Nat.add_zero]
          rw [if_neg hf]
          exact h0
        | succ i =>
          have hstep := hget i (Nat.lt_of_succ_lt_succ hi)
          simp only [List.length_append, List.length_cons, List.length_nil, Nat.zero_add]
            at hstep
          have harith : acc.length + (i + 1) = acc.length + 1 + i := by omega
          have hidx : k + 1 + i + 1 = k + (i + 1) + 1 := by omega
          rw [harith, hstep, hidx]; rfl

/-- The output of a successful `applyMaskingToPdf` run, page by page:
page `i+1` is the flattened image page exactly when some region names
it, and a verbatim copy of the original page otherwise. -/
theorem applyMaskingToPdf_get (doc : List PdfPage)
    (regions : List SelectedRegion) (canvasFail : Nat → Option String)
    (out : List OutPage)
    (hout : applyMaskingToPdf doc regions canvasFail = Except.ok out) :
    out.length = doc.length ∧
    ∀ i, (hi : i < doc.length) →
      out.get? i = some
        (if (dedupFirst (regions.map (fun r => r.page))).contains (i + 1) then
          OutPage.imagePage (renderPageAsImage regions (i + 1))
            (doc.get ⟨i, hi⟩).width (doc.get ⟨i, hi⟩).height
        else OutPage.copied (doc.get ⟨i, hi⟩)) := by
  have hout' : (List.enumFrom 0 doc).foldl
      (buildPageStep regions canvasFail
        (dedupFirst (regions.map (fun r => r.page))))
      (Except.ok []) = Except.ok out := hout
  obtain ⟨hlen, hpre, hget⟩ :=
    build_aux regions canvasFail (dedupFirst (regions.map (fun r => r.page)))
      doc 0 [] out hout'
  refine ⟨by simpa using hlen, ?_⟩
  intro i hi
  simpa using hget i hi

/-! ## Claim C1 -/

/-- C1: every page referenced by a selected region is, in the output of
a successful `applyMaskingToPdf` run, a page rebuilt from scratch
holding only the single rendered PNG, sized to the original page's
native dimensions — so text extraction on that output page yields the
empty string. -/
theorem C1_flattened_page_has_no_text (doc : List PdfPage)
    (regions : List SelectedRegion) (canvasFail : Nat → Option String)
    (out : List OutPage) (i : Nat)
    (hout : applyMaskingToPdf doc regions canvasFail = Except.ok out)
    (hi : i < doc.length)
    (hflat : (i + 1) ∈ regions.map (fun r => r.page)) :
    out.get? i = some (OutPage.imagePage (renderPageAsImage regions (i + 1))
      (doc.get ⟨i, hi⟩).width (doc.get ⟨i, hi⟩).height) ∧
    (out.get? i).map extractOutText = some "" := by
  obtain ⟨-, hget⟩ := applyMaskingToPdf_get doc regions canvasFail out hout
  have hc : (dedupFirst (regions.map (fun r => r.page))).contains (i + 1) = true :=
    List.elem_eq_true_of_mem ((dedupFirst_mem _ _).mpr hflat)
  have h := hget i hi
  rw [if_pos hc] at h
  exact ⟨h, by rw [h]; rfl⟩

def c1doc : List PdfPage :=
  [⟨595, 842, "연봉: 4000만원"⟩, ⟨595, 842, "경력 사항"⟩]

def c1regions : List SelectedRegion :=
  [⟨1, 30, 40, 100, 20, 3/2⟩]

/-- C1 (witness): on a concrete two-page document whose first page is
selected, the output's first page is the image page and extracts to "". -/
theorem C1_flattened_page_has_no_text_witness :
    (applyMaskingToPdf c1doc c1regions (fun _ => none)).toOption.bind
        (fun out => out.get? 0) =
      some (OutPage.imagePage (renderPageAsImage c1regions 1) 595 842) ∧
    (applyMaskingToPdf c1doc c1regions (fun _ => none)).toOption.bind
        (fun out => (out.get? 0).map extractOutText) = some "" := by
  have h := C1_flattened_page_has_no_text c1doc c1regions (fun _ => none)
    [OutPage.imagePage (renderPageAsImage c1regions 1) 595 842,
     OutPage.copied ⟨595, 842, "경력 사항"⟩] 0 rfl (by decide) (by decide)
  exact ⟨by rw [show (applyMaskingToPdf c1doc c1regions (fun _ => none)).toOption =
      some [OutPage.imagePage (renderPageAsImage c1regions 1) 595 842,
            OutPage.copied ⟨595, 842, "경력 사항"⟩] from rfl]; exact h.1,
    by rw [show (applyMaskingToPdf c1doc c1regions (fun _ => none)).toOption =
      some [OutPage.imagePage (renderPageAsImage c1regions 1) 595 842,
            OutPage.copied ⟨595, 842, "경력 사항"⟩] from rfl]; exact h.2⟩

/-! ## Claim C4 -/

/-- C4: every page referenced by no selected region is copied verbatim
(as a structure-preserving `copyPages` copy, not re-rendered) into the
output of a successful `applyMaskingToPdf` run, so its extractable text
equals the input page's text exactly. -/
theorem C4_unaffected_page_copied_verbatim (doc : List PdfPage)
    (regions : List SelectedRegion) (canvasFail : Nat → Option String)
    (out : List OutPage) (i : Nat)
    (hout : applyMaskingToPdf doc regions canvasFail = Except.ok out)
    (hi : i < doc.length)
    (hnot : (i + 1) ∉ regions.map (fun r => r.page)) :
    out.get? i = some (OutPage.copied (doc.get ⟨i, hi⟩)) ∧
    (out.get? i).map extractOutText = some (doc.get ⟨i, hi⟩).text := by
  obtain ⟨-, hget⟩ := applyMaskingToPdf_get doc regions canvasFail out hout
  have hc : ¬ (dedupFirst (regions.map (fun r => r.page))).contains (i + 1)
      = true := by
    intro hcon
    exact hnot ((dedupFirst_mem _ _).mp (List.mem_of_elem_eq_true hcon))
  have h := hget i hi
  rw [if_neg hc] at h
  exact ⟨h, by rw [h]; rfl⟩

def c4doc : List PdfPage :=
  [⟨595, 842, "연봉: 4000만원"⟩, ⟨612, 792, "자기소개서 본문"⟩]

def c4regions : List SelectedRegion :=
  [⟨1, 30, 40, 100, 20, 3/2⟩]

/-- C4 (witness): on a concrete document with only page 1 selected, the
output's second page is the verbatim copy of the input's second page and
extracts to the same text. -/
theorem C4_unaffected_page_copied_verbatim_witness :
    (applyMaskingToPdf c4doc c4regions (fun _ => none)).toOption.bind
        (fun out => out.get? 1) =
      some (OutPage.copied ⟨612, 792, "자기소개서 본문"⟩) ∧
    (applyMaskingToPdf c4doc c4regions (fun _ => none)).toOption.bind
        (fun out => (out.get? 1).map extractOutText) =
      some "자기소개서 본문" := by
  have h := C4_unaffected_page_copied_verbatim c4doc c4regions (fun _ => none)
    [OutPage.imagePage (renderPageAsImage c4regions 1) 595 842,
     OutPage.copied ⟨612, 792, "자기소개서 본문"⟩] 1 rfl (by decide) (by decide)
  exact ⟨by rw [show (applyMaskingToPdf c4doc c4regions (fun _ => none)).toOption =
      some [OutPage.imagePage (renderPageAsImage c4regions 1) 595 842,
            OutPage.copied ⟨612, 792, "자기소개서 본문"⟩] from rfl]; exact h.1,
    by rw [show (applyMaskingToPdf c4doc c4regions (fun _ => none)).toOption =
      some [OutPage.imagePage (renderPageAsImage c4regions 1) 595 842,
            OutPage.copied ⟨612, 792, "자기소개서 본문"⟩] from rfl]; exact h.2⟩

/-! ## Claim C8 -/

/-- The session state `openMaskingModal` establishes after a successful
load: empty region list, page 1, the default 1.5 zoom scale. -/
def openSession (doc : List PdfPage) (file : FileV) : Session :=
  { pdfDoc := some doc, currentPage := 1, totalPages := doc.length,
    scale := 3/2, selectedRegions := [], isDrawing := false,
    startX := 0, startY := 0, originalFile := some file,
    modalOpen := true, applyBtnEnabled := false }

theorem onMouseUp_inv (s : Session) (x y : ℚ) (h : RegionInv s) :
    RegionInv (onMouseUp s x y) := by
  intro r hr
  unfold onMouseUp at hr
  split at hr
  · exact h r hr
  · dsimp only at hr
    split at hr
    · rename_i hwh
      simp only [List.mem_append, List.mem_singleton] at hr
      rcases hr with hr | hr
      · exact h r hr
      · subst hr
        exact ⟨hwh.1, hwh.2⟩
    · exact h r hr

theorem stepSession_inv (s : Session) (op : SessionOp) (h : RegionInv s) :
    RegionInv (stepSession s op) := by
  cases op with
  | mouseDown x y => exact fun r hr => h r hr
  | mouseUp x y => exact onMouseUp_inv s x y h
  | remove index =>
    exact fun r hr => h r (List.eraseIdx_subset s.selectedRegions index hr)
  | clear confirmed =>
    intro r hr
    simp only [stepSession, clearAllRegions] at hr
    split at hr
    · exact h r hr
    · simp at hr
  | page pageNum =>
    intro r hr
    simp only [stepSession, goToPage] at hr
    split at hr
    · exact h r hr
    · exact h r hr
  | zoom scale =>
    intro r hr
    simp only [stepSession, setZoom] at hr
    split at hr
    · exact h r hr
    · exact h r hr
  | close =>
    intro r hr
    simp only [stepSession, closeModal] at hr
    simp at hr

theorem runSession_inv (ops : List SessionOp) :
    ∀ (s : Session), RegionInv s → RegionInv (runSession s ops) := by
  induction ops with
  | nil => exact fun s h => h
  | cons op rest ih =>
    intro s h
    exact ih (stepSession s op) (stepSession_inv s op h)

/-- C8: every region in the session's list is at least 10×10 renderer
pixels — a finalized drag is appended only if both dimensions meet the
10-pixel floor and is discarded silently otherwise, every session
operation preserves the invariant, it holds along any operation sequence
from a freshly opened session, and in particular a drag producing
`width=5, height=30` leaves the region list unchanged. -/
theorem C8_region_size_invariant :
    (∀ (s : Session) (ops : List SessionOp), RegionInv s →
      RegionInv (runSession s ops)) ∧
    (∀ (doc : List PdfPage) (file : FileV) (ops : List SessionOp),
      RegionInv (runSession (openSession doc file) ops)) ∧
    (∀ (s : Session) (x y : ℚ), ratAbs (x - s.startX) = 5 →
      ratAbs (y - s.startY) = 30 →
      (onMouseUp s x y).selectedRegions = s.selectedRegions) := by
  refine ⟨fun s ops h => runSession_inv ops s h,
    fun doc file ops => runSession_inv ops _ (by intro r hr; simp [openSession] at hr),
    ?_⟩
  intro s x y hw hh
  unfold onMouseUp
  split
  · rfl
  · rw [if_neg]
    intro hcontra
    rw [hw] at hcontra
    have := hcontra.1
    norm_num at this

/-- A mid-drag session holding one valid region, for the C8 witness. -/
def c8sess : Session :=
  { pdfDoc := some [⟨595, 842, "텍스트"⟩], currentPage := 1, totalPages := 1,
    scale := 3/2, selectedRegions := [⟨1, 40, 50, 60, 20, 3/2⟩],
    isDrawing := true, startX := 0, startY := 0,
    originalFile := some ⟨"r.pdf", "application/pdf", []⟩,
    modalOpen := true, applyBtnEnabled := true }

/-- C8 (witness): the invariant holds after a concrete drag sequence
from a fresh session, and a concrete 5×30 drag adds nothing. -/
theorem C8_region_size_invariant_witness :
    RegionInv (runSession (openSession [⟨595, 842, "텍스트"⟩] ⟨"r.pdf", "application/pdf", []⟩)
      [SessionOp.mouseDown 0 0, SessionOp.mouseUp 25 40]) ∧
    (onMouseUp c8sess 5 30).selectedRegions = c8sess.selectedRegions :=
  ⟨C8_region_size_invariant.2.1 _ _ _,
   C8_region_size_invariant.2.2 c8sess 5 30
     (by norm_num [ratAbs, c8sess]) (by norm_num [ratAbs, c8sess])⟩

/-! ## Claim C9 -/

/-- C9: with no region selected the commit is rejected and the session
unchanged; if the Rasterizing Redactor fails, the commit delivers no
output and leaves the session in a usable Ready state — document
handle, region list and modal intact, apply button re-enabled — and
only on success does the commit close the modal (releasing the document
handle and regions) and deliver the masked document together with the
region count to the caller. -/
theorem C9_commit_fail_closed_session_retryable (s : Session)
    (canvasFail : Nat → Option String) :
    (s.selectedRegions = [] → applyMaskingAndUpload s canvasFail = (s, none)) ∧
    (∀ e, s.selectedRegions ≠ [] →
      applyMaskingToPdf (s.pdfDoc.getD []) s.selectedRegions canvasFail =
        Except.error e →
      (applyMaskingAndUpload s canvasFail).snd = none ∧
      (applyMaskingAndUpload s canvasFail).fst.pdfDoc = s.pdfDoc ∧
      (applyMaskingAndUpload s canvasFail).fst.selectedRegions =
        s.selectedRegions ∧
      (applyMaskingAndUpload s canvasFail).fst.modalOpen = s.modalOpen ∧
      (applyMaskingAndUpload s canvasFail).fst.applyBtnEnabled = true) ∧
    (∀ outPages, s.selectedRegions ≠ [] →
      applyMaskingToPdf (s.pdfDoc.getD []) s.selectedRegions canvasFail =
        Except.ok outPages →
      applyMaskingAndUpload s canvasFail =
        (closeModal { s with applyBtnEnabled := false },
         some (outPages, s.selectedRegions.length))) := by
  refine ⟨?_, ?_, ?_⟩
  · intro hempty
    unfold applyMaskingAndUpload
    rw [if_pos (by rw [hempty]; rfl)]
  · intro e hne herr
    have hguard : (s.selectedRegions.length == 0) = false := by
      cases hsel : s.selectedRegions with
      | nil => exact absurd hsel hne
      | cons a l => rfl
    unfold applyMaskingAndUpload
    rw [hguard]
    simp [herr]
  · intro outPages hne hok
    have hguard : (s.selectedRegions.length == 0) = false := by
      cases hsel : s.selectedRegions with
      | nil => exact absurd hsel hne
      | cons a l => rfl
    unfold applyMaskingAndUpload
    rw [hguard]
    simp [hok]

/-- A ready-to-commit session over a one-page document with one selected
region, for the C9 witness. -/
def c9sess : Session :=
  { pdfDoc := some [⟨595, 842, "급여 3,000만원"⟩], currentPage := 1,
    totalPages := 1, scale := 3/2,
    selectedRegions := [⟨1, 30, 40, 100, 20, 3/2⟩], isDrawing := false,
    startX := 0, startY := 0,
    originalFile := some ⟨"이력서.pdf", "application/pdf", []⟩,
    modalOpen := true, applyBtnEnabled := true }

/-- C9 (witness): at the concrete session above, with the canvas
throwing on every page, the commit delivers nothing and leaves the
document handle, regions and modal intact with the button re-enabled. -/
theorem C9_commit_fail_closed_session_retryable_witness :
    (applyMaskingAndUpload c9sess (fun _ => some "캔버스 렌더링 실패")).snd =
      none ∧
    (applyMaskingAndUpload c9sess
      (fun _ => some "캔버스 렌더링 실패")).fst.pdfDoc = c9sess.pdfDoc ∧
    (applyMaskingAndUpload c9sess
      (fun _ => some "캔버스 렌더링 실패")).fst.selectedRegions =
      c9sess.selectedRegions ∧
    (applyMaskingAndUpload c9sess
      (fun _ => some "캔버스 렌더링 실패")).fst.modalOpen = c9sess.modalOpen ∧
    (applyMaskingAndUpload c9sess
      (fun _ => some "캔버스 렌더링 실패")).fst.applyBtnEnabled = true :=
  (C9_commit_fail_closed_session_retryable c9sess
      (fun _ => some "캔버스 렌더링 실패")).2.1
    "캔버스 렌더링 실패" (List.cons_ne_nil _ _) rfl

end ATS
